import Mathlib

/-
Shallow embedding of credit_rate_limit/rate_limiter.py.

Times (Python floats produced by time.time) are modelled as rationals,
credits (Python ints) as integers.  The mutable limiter objects become
immutable records and each state mutation becomes an explicit function.
Logging calls are ignored (observability only).  The optional diagnostic
name field (a string or a generated uuid) is omitted: it never influences
the algorithm.
-/

/-- State of a CreditRateLimiter instance, mirroring CreditRateLimiter.__init__:
max_credits, interval and retry are stored as given; timestamped_credits starts
empty and request_credits starts at -1. -/
structure CreditRateLimiter where
  max_credits : Int
  interval : ℚ
  retry : ℚ
  timestamped_credits : List (ℚ × Int)
  request_credits : Int
deriving DecidableEq

/-- CreditRateLimiter.__init__: stores the arguments unconditionally; the
source constructor contains no validation and no failure path. -/
def CreditRateLimiter.init (max_credits : Int) (interval retry : ℚ) : CreditRateLimiter :=
  { max_credits := max_credits
    interval := interval
    retry := retry
    timestamped_credits := []
    request_credits := -1 }

/-- CreditRateLimiter.credit_sum: sum(map(lambda t: t[1], timestamped_credits)). -/
def credit_sum (l : List (ℚ × Int)) : Int :=
  (l.map Prod.snd).sum

/-- The credits still unconsumed in the window: the spec calls this quantity
available; in the source it is max_credits minus credit_sum. -/
def availableCredits (s : CreditRateLimiter) : Int :=
  s.max_credits - credit_sum s.timestamped_credits

/-- CreditRateLimiter.__call__(request_credits): sets the request_credits field
and returns the (mutated) limiter. -/
def CreditRateLimiter.callWith (s : CreditRateLimiter) (request_credits : Int) : CreditRateLimiter :=
  { s with request_credits := request_credits }

/-- The inner while-loop of CreditRateLimiter.__aenter__: pop the head of
timestamped_credits while now - head timestamp > interval, stop at the first
entry that is not yet expired. -/
def pruneCredits (now interval : ℚ) : List (ℚ × Int) → List (ℚ × Int)
  | [] => []
  | p :: rest => if now - p.1 > interval then pruneCredits now interval rest else p :: rest

/-- One iteration of the outer polling loop of CreditRateLimiter.__aenter__ at
prune time now: prune expired entries, then, if credit_sum < max_credits,
append (tAppend, request_credits) and report admission (the loop breaks);
otherwise leave the pruned state and report that the caller keeps polling
(the loop sleeps for retry seconds and runs again). -/
def aenterPoll (s : CreditRateLimiter) (now tAppend : ℚ) : CreditRateLimiter × Bool :=
  let pruned := pruneCredits now s.interval s.timestamped_credits
  if credit_sum pruned < s.max_credits then
    ({ s with timestamped_credits := pruned ++ [(tAppend, s.request_credits)] }, true)
  else
    ({ s with timestamped_credits := pruned }, false)

/-- CreditRateLimiter.__aexit__: whatever the exception information is, the only
mutation is request_credits = -1. -/
def CreditRateLimiter.aexit (s : CreditRateLimiter) (exc : Option String) : CreditRateLimiter :=
  let _ := exc
  { s with request_credits := -1 }

/-- The pruning pass of __aenter__ viewed as a state transformer: only the
timestamped_credits field changes. -/
def CreditRateLimiter.pruneAt (s : CreditRateLimiter) (now : ℚ) : CreditRateLimiter :=
  { s with timestamped_credits := pruneCredits now s.interval s.timestamped_credits }

/-- One scheduler event against a shared credit pool: a poll iteration of some
caller whose request_credits field holds w, pruning at time now and, when
admitted, appending at time tAppend. -/
inductive CreditEvent where
  | poll (now tAppend : ℚ) (w : Int)
deriving DecidableEq

/-- Weight carried by a credit event. -/
def CreditEvent.weight : CreditEvent → Int
  | .poll _ _ w => w

/-- Effect of one credit event on the shared timestamped_credits list:
the body of one __aenter__ loop iteration (which runs without a suspension
point on the admission path). -/
def creditStep (max : Int) (interval : ℚ) (l : List (ℚ × Int)) : CreditEvent → List (ℚ × Int)
  | .poll now tAppend w =>
      let pruned := pruneCredits now interval l
      if credit_sum pruned < max then pruned ++ [(tAppend, w)] else pruned

/-- The shared timestamped_credits list reached from a fresh limiter after an
arbitrary interleaving of poll iterations of concurrent callers. -/
def runCredit (max : Int) (interval : ℚ) (events : List CreditEvent) : List (ℚ × Int) :=
  events.foldl (creditStep max interval) []

/-- State of a CountRateLimiter instance, mirroring CountRateLimiter.__init__. -/
structure CountRateLimiter where
  max_count : Int
  interval : ℚ
  retry : ℚ
  timestamps : List ℚ
deriving DecidableEq

/-- CountRateLimiter.__init__: stores the arguments unconditionally; no
validation and no failure path in the source constructor. -/
def CountRateLimiter.init (max_count : Int) (interval retry : ℚ) : CountRateLimiter :=
  { max_count := max_count
    interval := interval
    retry := retry
    timestamps := [] }

/-- The inner while-loop of CountRateLimiter.__aenter__: pop the head of
timestamps while now - head > interval. -/
def pruneTimestamps (now interval : ℚ) : List ℚ → List ℚ
  | [] => []
  | t :: rest => if now - t > interval then pruneTimestamps now interval rest else t :: rest

/-- The pruning pass of CountRateLimiter.__aenter__ as a state transformer. -/
def CountRateLimiter.pruneAt (s : CountRateLimiter) (now : ℚ) : CountRateLimiter :=
  { s with timestamps := pruneTimestamps now s.interval s.timestamps }

/-- One scheduler event against a shared count pool: a poll iteration pruning
at time now and, when admitted, appending timestamp tAppend. -/
inductive CountEvent where
  | poll (now tAppend : ℚ)
deriving DecidableEq

/-- Effect of one count event on the shared timestamps list: the body of one
CountRateLimiter.__aenter__ loop iteration. -/
def countStep (max : Int) (interval : ℚ) (l : List ℚ) : CountEvent → List ℚ
  | .poll now tAppend =>
      let pruned := pruneTimestamps now interval l
      if (pruned.length : Int) < max then pruned ++ [tAppend] else pruned

/-- The shared timestamps list reached from a fresh count limiter after an
arbitrary interleaving of poll iterations. -/
def runCount (max : Int) (interval : ℚ) (events : List CountEvent) : List ℚ :=
  events.foldl (countStep max interval) []

/-- The rate_limiter argument of throughput: an instance of one of the two
limiter classes. -/
inductive RateLimiterInstance where
  | credit (rl : CreditRateLimiter)
  | count (rl : CountRateLimiter)
deriving DecidableEq

/-- The four decorators the throughput dispatcher can return. -/
inductive ThroughputResult where
  | creditDecorator (rl : CreditRateLimiter) (request_credits : Int)
  | countDecorator (rl : CountRateLimiter)
  | creditAttrDecorator (attribute_name : String) (request_credits : Int)
  | countAttrDecorator (attribute_name : String)
deriving DecidableEq

/-- Python truthiness of an Optional[int]: None and 0 are falsy. -/
def intOptTruthy : Option Int → Bool
  | none => false
  | some n => n != 0

/-- Python truthiness of an Optional[str]: None and the empty string are falsy. -/
def strOptTruthy : Option String → Bool
  | none => false
  | some s => s != ""

def creditParamsErrMsg : String :=
  "Wrong parameter(s): when using CreditRateLimiter, request_credits is needed, while attribute_name must be None"

def countParamsErrMsg : String :=
  "Wrong parameter(s): when using CountRateLimiter, request_credits and attribute_name must be None"

def noArgsErrMsg : String :=
  "Wrong parameter(s): either rate_limiter or attribute_name must be provided"

/-- The throughput dispatcher: mirrors the if/elif/else chain of throughput in
the source.  A raised ValueError becomes Except.error; a returned decorator
becomes Except.ok.  The first branch tests the truthiness of request_credits
(so 0 behaves like None) and that attribute_name is None; the second branch
tests the truthiness of attribute_name and request_credits; the third fires
when rate_limiter is None and attribute_name is not None and chooses between
the two attribute-based decorators on request_credits being None. -/
def throughputModel (rate_limiter : Option RateLimiterInstance)
    (attribute_name : Option String) (request_credits : Option Int) :
    Except String ThroughputResult :=
  match rate_limiter with
  | some (RateLimiterInstance.credit crl) =>
      if intOptTruthy request_credits && attribute_name == none then
        Except.ok (ThroughputResult.creditDecorator crl (request_credits.getD 0))
      else
        Except.error creditParamsErrMsg
  | some (RateLimiterInstance.count rl) =>
      if strOptTruthy attribute_name || intOptTruthy request_credits then
        Except.error countParamsErrMsg
      else
        Except.ok (ThroughputResult.countDecorator rl)
  | none =>
      match attribute_name with
      | some attr =>
          match request_credits with
          | none => Except.ok (ThroughputResult.countAttrDecorator attr)
          | some w => Except.ok (ThroughputResult.creditAttrDecorator attr w)
      | none => Except.error noArgsErrMsg

/-- Follows the words of the spec, for comparison with CreditRateLimiter.init:
construction validates max_credits > 0 and interval > 0 and fails with a
configuration error otherwise. -/
def specCheckedCreditInit (max_credits : Int) (interval retry : ℚ) :
    Except String CreditRateLimiter :=
  if 0 < max_credits ∧ 0 < interval then
    Except.ok (CreditRateLimiter.init max_credits interval retry)
  else
    Except.error "configuration error: max_credits and interval must be positive"

/-- A credit pool holding one admission of 150 credits with 150 more requested:
max 200, interval 1 s. -/
def creditState150 : CreditRateLimiter :=
  { max_credits := 200
    interval := 1
    retry := 1/10
    timestamped_credits := [(0, 150)]
    request_credits := 150 }

/-- A credit pool whose single admission of 50 credits is fully expired at
time 2. -/
def creditStateExpired : CreditRateLimiter :=
  { max_credits := 200
    interval := 1
    retry := 1/10
    timestamped_credits := [(0, 50)]
    request_credits := -1 }

/-- A count pool whose single timestamp is fully expired at time 2. -/
def countStateExpired : CountRateLimiter :=
  { max_count := 5
    interval := 1
    retry := 1/10
    timestamps := [0] }

/-- A fresh credit pool of 200 credits per second with a 40-credit request. -/
def creditFresh40 : CreditRateLimiter :=
  (CreditRateLimiter.init 200 1 (1/10)).callWith 40

/-- A fresh credit pool of 10 credits per second with a 100-credit request:
the requested weight exceeds max_credits. -/
def creditOverweight : CreditRateLimiter :=
  (CreditRateLimiter.init 10 1 (1/10)).callWith 100

/- Helper lemmas about credit_sum and pruning. -/

theorem credit_sum_cons (p : ℚ × Int) (l : List (ℚ × Int)) :
    credit_sum (p :: l) = p.2 + credit_sum l := by
  simp [credit_sum]

theorem credit_sum_append_single (l : List (ℚ × Int)) (p : ℚ × Int) :
    credit_sum (l ++ [p]) = credit_sum l + p.2 := by
  simp [credit_sum]

theorem mem_pruneCredits (now interval : ℚ) :
    ∀ (l : List (ℚ × Int)) (p : ℚ × Int), p ∈ pruneCredits now interval l → p ∈ l
  | [], p, hp => by simp [pruneCredits] at hp
  | q :: rest, p, hp => by
      simp only [pruneCredits] at hp
      by_cases h : now - q.1 > interval
      · rw [if_pos h] at hp
        exact List.mem_cons_of_mem _ (mem_pruneCredits now interval rest p hp)
      · rw [if_neg h] at hp
        exact hp

theorem credit_sum_pruneCredits_le (now interval : ℚ) :
    ∀ l : List (ℚ × Int), (∀ p ∈ l, 0 ≤ p.2) →
      credit_sum (pruneCredits now interval l) ≤ credit_sum l
  | [], _ => le_refl _
  | q :: rest, h => by
      simp only [pruneCredits]
      by_cases hc : now - q.1 > interval
      · rw [if_pos hc]
        have h1 := credit_sum_pruneCredits_le now interval rest
          (fun p hp => h p (List.mem_cons_of_mem _ hp))
        have h2 : 0 ≤ q.2 := h q (List.mem_cons_self _ _)
        rw [credit_sum_cons]
        omega
      · rw [if_neg hc]

theorem runCredit_invariant_aux (max W : Int) (interval : ℚ) :
    ∀ (events : List CreditEvent) (l : List (ℚ × Int)),
      (∀ p ∈ l, 0 < p.2 ∧ p.2 ≤ W) →
      credit_sum l ≤ max - 1 + W →
      (∀ e ∈ events, 0 < e.weight ∧ e.weight ≤ W) →
      credit_sum (events.foldl (creditStep max interval) l) ≤ max - 1 + W
  | [], _, _, hsum, _ => by simpa using hsum
  | e :: rest, l, hl, hsum, hev => by
      rcases e with ⟨now, tA, w⟩
      have hw := hev _ (List.mem_cons_self _ _)
      have hpm : ∀ p ∈ pruneCredits now interval l, 0 < p.2 ∧ p.2 ≤ W :=
        fun p hp => hl p (mem_pruneCredits now interval l p hp)
      have hps : credit_sum (pruneCredits now interval l) ≤ credit_sum l :=
        credit_sum_pruneCredits_le now interval l (fun p hp => le_of_lt (hl p hp).1)
      rw [List.foldl_cons]
      by_cases hg : credit_sum (pruneCredits now interval l) < max
      · have hstep : creditStep max interval l (CreditEvent.poll now tA w) =
            pruneCredits now interval l ++ [(tA, w)] := by
          simp [creditStep, hg]
        rw [hstep]
        refine runCredit_invariant_aux max W interval rest _ ?_ ?_
          (fun e he => hev e (List.mem_cons_of_mem _ he))
        · intro p hp
          rcases List.mem_append.1 hp with hp | hp
          · exact hpm p hp
          · have hpe : p = (tA, w) := by simpa using hp
            subst hpe
            exact ⟨hw.1, hw.2⟩
        · rw [credit_sum_append_single]
          have hle : credit_sum (pruneCredits now interval l) ≤ max - 1 := by omega
          have hwW : (tA, w).2 ≤ W := hw.2
          omega
      · have hstep : creditStep max interval l (CreditEvent.poll now tA w) =
            pruneCredits now interval l := by
          simp [creditStep, hg]
        rw [hstep]
        exact runCredit_invariant_aux max W interval rest _ hpm (le_trans hps hsum)
          (fun e he => hev e (List.mem_cons_of_mem _ he))

/-- Claim C1 (amended): over every interleaving of concurrent poll iterations
with positive weights bounded by W, the recorded in-window credit sum never
exceeds max_credits - 1 + W: each admission only requires the previously
recorded sum to be strictly below max_credits, so the sum can overshoot
max_credits by up to W - 1 but no further. -/
theorem creditRateLimiter_outstanding_bounded (max W : Int) (interval : ℚ)
    (events : List CreditEvent) (hmax : 0 ≤ max) (hW : 1 ≤ W)
    (hev : ∀ e ∈ events, 0 < e.weight ∧ e.weight ≤ W) :
    credit_sum (runCredit max interval events) ≤ max - 1 + W := by
  refine runCredit_invariant_aux max W interval events [] ?_ ?_ hev
  · intro p hp
    simp at hp
  · have hnil : credit_sum ([] : List (ℚ × Int)) = 0 := rfl
    omega

/-- Witness for C1: one admission of weight 40 against max_credits 200 keeps
the recorded sum within 200 - 1 + 40. -/
theorem creditRateLimiter_outstanding_bounded_witness :
    credit_sum (runCredit 200 1 [CreditEvent.poll 0 0 40]) ≤ 200 - 1 + 40 :=
  creditRateLimiter_outstanding_bounded 200 40 1 [CreditEvent.poll 0 0 40]
    (by decide) (by decide) (by decide)

/-- Counterexample for C1 as stated: with max_credits = 200 two concurrent
admissions of weight 150 are both admitted (each sees a recorded sum below
200), and the recorded in-window sum reaches 300 > 200. -/
theorem creditRateLimiter_sum_exceeds_max_counterexample :
    credit_sum (runCredit 200 1 [CreditEvent.poll 0 0 150, CreditEvent.poll 0 0 150]) = 300 ∧
    ¬ credit_sum (runCredit 200 1 [CreditEvent.poll 0 0 150, CreditEvent.poll 0 0 150]) ≤ 200 := by
  have h : runCredit 200 1 [CreditEvent.poll 0 0 150, CreditEvent.poll 0 0 150] =
      [((0:ℚ), (150:Int)), (0, 150)] := by
    norm_num [runCredit, creditStep, pruneCredits, credit_sum]
  rw [h]
  norm_num [credit_sum]

/-- Claim C2 (amended): a poll iteration of __aenter__ admits exactly when the
pruned recorded sum is strictly below max_credits, irrespective of the weight
(the guard is available at least 1, not available at least weight); on
admission the recorded sum grows by exactly request_credits, so the available
budget drops by exactly the requested weight. -/
theorem aenterPoll_admission (s : CreditRateLimiter) (now tAppend : ℚ)
    (h : (aenterPoll s now tAppend).2 = true) :
    credit_sum (pruneCredits now s.interval s.timestamped_credits) < s.max_credits ∧
    credit_sum (aenterPoll s now tAppend).1.timestamped_credits =
      credit_sum (pruneCredits now s.interval s.timestamped_credits) + s.request_credits ∧
    availableCredits (aenterPoll s now tAppend).1 =
      (s.max_credits - credit_sum (pruneCredits now s.interval s.timestamped_credits))
        - s.request_credits := by
  by_cases hg : credit_sum (pruneCredits now s.interval s.timestamped_credits) < s.max_credits
  · refine ⟨hg, ?_, ?_⟩
    · simp [aenterPoll, hg, credit_sum_append_single]
    · simp [aenterPoll, hg, availableCredits, credit_sum_append_single]
      ring
  · exfalso
    simp [aenterPoll, hg] at h

/-- Witness for C2: a fresh pool with a 40-credit request admits on the first
poll and the recorded sum becomes the pruned sum plus 40. -/
theorem aenterPoll_admission_witness :
    credit_sum (pruneCredits 0 creditFresh40.interval creditFresh40.timestamped_credits) <
      creditFresh40.max_credits ∧
    credit_sum (aenterPoll creditFresh40 0 0).1.timestamped_credits =
      credit_sum (pruneCredits 0 creditFresh40.interval creditFresh40.timestamped_credits) +
        creditFresh40.request_credits ∧
    availableCredits (aenterPoll creditFresh40 0 0).1 =
      (creditFresh40.max_credits -
        credit_sum (pruneCredits 0 creditFresh40.interval creditFresh40.timestamped_credits))
        - creditFresh40.request_credits :=
  aenterPoll_admission creditFresh40 0 0 rfl

/-- Counterexample for C2 as stated: in creditState150 the available budget is
50 while the requested weight is 150, yet the poll admits (the guard only
checks that the recorded sum 150 is below max_credits 200) and the recorded
sum reaches 300. -/
theorem aenterPoll_admits_below_weight_counterexample :
    (aenterPoll creditState150 0 0).2 = true ∧
    availableCredits creditState150 < creditState150.request_credits ∧
    credit_sum (aenterPoll creditState150 0 0).1.timestamped_credits = 300 := by
  refine ⟨?_, ?_, ?_⟩
  · norm_num [aenterPoll, creditState150, pruneCredits, credit_sum]
  · norm_num [availableCredits, creditState150, credit_sum]
  · norm_num [aenterPoll, creditState150, pruneCredits, credit_sum]

theorem pruneTimestamps_length_le (now interval : ℚ) :
    ∀ l : List ℚ, (pruneTimestamps now interval l).length ≤ l.length
  | [] => le_refl _
  | t :: rest => by
      simp only [pruneTimestamps]
      by_cases h : now - t > interval
      · rw [if_pos h]
        exact le_trans (pruneTimestamps_length_le now interval rest) (Nat.le_succ _)
      · rw [if_neg h]

theorem runCount_invariant_aux (max : Int) (interval : ℚ) :
    ∀ (events : List CountEvent) (l : List ℚ),
      (l.length : Int) ≤ max →
      ((events.foldl (countStep max interval) l).length : Int) ≤ max
  | [], _, hl => by simpa using hl
  | e :: rest, l, hl => by
      rcases e with ⟨now, tA⟩
      have hp : ((pruneTimestamps now interval l).length : Int) ≤ (l.length : Int) := by
        exact_mod_cast pruneTimestamps_length_le now interval l
      rw [List.foldl_cons]
      by_cases hg : ((pruneTimestamps now interval l).length : Int) < max
      · have hstep : countStep max interval l (CountEvent.poll now tA) =
            pruneTimestamps now interval l ++ [tA] := by
          simp [countStep, hg]
        rw [hstep]
        refine runCount_invariant_aux max interval rest _ ?_
        simp only [List.length_append, List.length_cons, List.length_nil]
        push_cast
        omega
      · have hstep : countStep max interval l (CountEvent.poll now tA) =
            pruneTimestamps now interval l := by
          simp [countStep, hg]
        rw [hstep]
        exact runCount_invariant_aux max interval rest _ (le_trans hp hl)

/-- Claim C3: for a count pool of nonnegative capacity max_count, over every
interleaving of concurrent poll iterations the number of recorded in-window
timestamps never exceeds max_count: each admission requires the pruned count
to be strictly below max_count before appending a single timestamp. -/
theorem countRateLimiter_count_bounded (max : Int) (interval : ℚ)
    (events : List CountEvent) (hmax : 0 ≤ max) :
    ((runCount max interval events).length : Int) ≤ max := by
  refine runCount_invariant_aux max interval events [] ?_
  simpa using hmax

/-- Witness for C3: two admissions against max_count 5 record at most 5
timestamps. -/
theorem countRateLimiter_count_bounded_witness :
    ((runCount 5 1 [CountEvent.poll 0 0, CountEvent.poll 0 0]).length : Int) ≤ 5 :=
  countRateLimiter_count_bounded 5 1 [CountEvent.poll 0 0, CountEvent.poll 0 0] (by decide)

/-- Claim C4 (amended): an acquisition whose weight exceeds max_credits is
governed by exactly the same admission guard as any other acquisition: it is
admitted if and only if the pruned recorded sum is strictly below max_credits
(in particular, immediately on a fresh limiter); __aenter__ has no rejection
branch and raises no error for over-weight requests. -/
theorem overweight_request_same_guard (s : CreditRateLimiter) (now tAppend : ℚ)
    (_h : s.max_credits < s.request_credits) :
    ((aenterPoll s now tAppend).2 = true ↔
      credit_sum (pruneCredits now s.interval s.timestamped_credits) < s.max_credits) := by
  by_cases hg : credit_sum (pruneCredits now s.interval s.timestamped_credits) < s.max_credits
  · simp [aenterPoll, hg]
  · simp [aenterPoll, hg]

/-- Witness for C4: the over-weight pool creditOverweight (weight 100 against
max_credits 10) satisfies the amended admission equivalence. -/
theorem overweight_request_same_guard_witness :
    ((aenterPoll creditOverweight 0 0).2 = true ↔
      credit_sum (pruneCredits 0 creditOverweight.interval creditOverweight.timestamped_credits) <
        creditOverweight.max_credits) :=
  overweight_request_same_guard creditOverweight 0 0 (by decide)

/-- Counterexample for C4 as stated: on a fresh limiter with max_credits 10, a
request of weight 100 is admitted by the very first poll iteration and its 100
credits are recorded; no error is raised and no polling occurs. -/
theorem overweight_request_admitted_counterexample :
    (aenterPoll creditOverweight 0 0).2 = true ∧
    creditOverweight.max_credits < creditOverweight.request_credits ∧
    credit_sum (aenterPoll creditOverweight 0 0).1.timestamped_credits = 100 := by
  refine ⟨rfl, by decide, ?_⟩
  norm_num [aenterPoll, creditOverweight, CreditRateLimiter.init, CreditRateLimiter.callWith,
    pruneCredits, credit_sum]

theorem pruneCredits_all_expired (now interval : ℚ) :
    ∀ l : List (ℚ × Int), (∀ p ∈ l, now - p.1 > interval) →
      pruneCredits now interval l = []
  | [], _ => rfl
  | q :: rest, h => by
      simp only [pruneCredits]
      rw [if_pos (h q (List.mem_cons_self _ _))]
      exact pruneCredits_all_expired now interval rest
        (fun p hp => h p (List.mem_cons_of_mem _ hp))

theorem pruneTimestamps_all_expired (now interval : ℚ) :
    ∀ l : List ℚ, (∀ t ∈ l, now - t > interval) → pruneTimestamps now interval l = []
  | [], _ => rfl
  | t :: rest, h => by
      simp only [pruneTimestamps]
      rw [if_pos (h t (List.mem_cons_self _ _))]
      exact pruneTimestamps_all_expired now interval rest
        (fun u hu => h u (List.mem_cons_of_mem _ hu))

/-- Claim C5: round trip: when more than interval seconds have passed since
every recorded admission, the pruning pass of __aenter__ empties the credit
pool record, the available budget equals max_credits again, and the count
pool timestamp list becomes empty. -/
theorem roundTrip_after_expiry (s : CreditRateLimiter) (sc : CountRateLimiter) (now : ℚ)
    (h1 : ∀ p ∈ s.timestamped_credits, now - p.1 > s.interval)
    (h2 : ∀ t ∈ sc.timestamps, now - t > sc.interval) :
    (s.pruneAt now).timestamped_credits = [] ∧
    availableCredits (s.pruneAt now) = s.max_credits ∧
    (sc.pruneAt now).timestamps = [] := by
  have hc := pruneCredits_all_expired now s.interval s.timestamped_credits h1
  have ht := pruneTimestamps_all_expired now sc.interval sc.timestamps h2
  refine ⟨?_, ?_, ?_⟩
  · simpa [CreditRateLimiter.pruneAt] using hc
  · simp [CreditRateLimiter.pruneAt, availableCredits, hc, credit_sum]
  · simpa [CountRateLimiter.pruneAt] using ht

/-- Witness for C5: at time 2 the single admission at time 0 (interval 1 s) is
expired, pruning empties both pools and restores the full credit budget. -/
theorem roundTrip_after_expiry_witness :
    (creditStateExpired.pruneAt 2).timestamped_credits = [] ∧
    availableCredits (creditStateExpired.pruneAt 2) = creditStateExpired.max_credits ∧
    (countStateExpired.pruneAt 2).timestamps = [] :=
  roundTrip_after_expiry creditStateExpired countStateExpired 2
    (by
      intro p hp
      simp [creditStateExpired] at hp
      subst hp
      norm_num [creditStateExpired])
    (by
      intro t ht
      simp [countStateExpired] at ht
      subst ht
      norm_num [countStateExpired])

/-- Claim C6 (amended): construction performs no validation: both constructors
are total, never raise, and store max_credits / max_count, interval and retry
exactly as given (with an empty recorded list), for every argument value,
positive or not. -/
theorem init_stores_arguments (mc : Int) (i r : ℚ) (n : Int) (j q : ℚ) :
    (CreditRateLimiter.init mc i r).max_credits = mc ∧
    (CreditRateLimiter.init mc i r).interval = i ∧
    (CreditRateLimiter.init mc i r).retry = r ∧
    (CreditRateLimiter.init mc i r).timestamped_credits = [] ∧
    (CreditRateLimiter.init mc i r).request_credits = -1 ∧
    (CountRateLimiter.init n j q).max_count = n ∧
    (CountRateLimiter.init n j q).interval = j ∧
    (CountRateLimiter.init n j q).retry = q ∧
    (CountRateLimiter.init n j q).timestamps = [] :=
  ⟨rfl, rfl, rfl, rfl, rfl, rfl, rfl, rfl, rfl⟩

/-- Counterexample for C6 as stated: construction with max_credits = 0,
max_count = 0 and interval = 0 succeeds and stores the non-positive values
unchanged, while the validating constructor written from the words of the
spec rejects exactly these arguments. -/
theorem init_accepts_nonpositive_counterexample :
    (CreditRateLimiter.init 0 0 (1/10)).max_credits = 0 ∧
    (CountRateLimiter.init 0 0 (1/10)).max_count = 0 ∧
    specCheckedCreditInit 0 0 (1/10) =
      Except.error "configuration error: max_credits and interval must be positive" := by
  refine ⟨rfl, rfl, ?_⟩
  norm_num [specCheckedCreditInit]

/-- Claim C7 (amended): when a limiter instance is supplied, combining it with
an attribute name fails with ValueError (for a CreditRateLimiter whatever the
weight is, and for a CountRateLimiter whenever the attribute name is truthy);
but when rate_limiter is None, supplying both an attribute name and a weight
is the attribute-based credit-limiting configuration and is accepted without
error. -/
theorem throughput_weight_and_attribute (crl : CreditRateLimiter) (cl : CountRateLimiter)
    (attr : String) (w : Int) (rc : Option Int) (h : attr ≠ "") :
    throughputModel (some (RateLimiterInstance.credit crl)) (some attr) rc =
      Except.error creditParamsErrMsg ∧
    throughputModel (some (RateLimiterInstance.count cl)) (some attr) rc =
      Except.error countParamsErrMsg ∧
    throughputModel none (some attr) (some w) =
      Except.ok (ThroughputResult.creditAttrDecorator attr w) := by
  refine ⟨?_, ?_, rfl⟩
  · have hb : (some attr == (none : Option String)) = false := rfl
    simp [throughputModel, hb]
  · simp [throughputModel, strOptTruthy, h]

/-- Witness for C7: with attribute name my_rl and weight 40, both
instance-plus-attribute calls raise and the instance-free call returns the
attribute-based credit decorator. -/
theorem throughput_weight_and_attribute_witness :
    throughputModel (some (RateLimiterInstance.credit creditFresh40)) (some "my_rl") (some 40) =
      Except.error creditParamsErrMsg ∧
    throughputModel (some (RateLimiterInstance.count countStateExpired)) (some "my_rl") (some 40) =
      Except.error countParamsErrMsg ∧
    throughputModel none (some "my_rl") (some 40) =
      Except.ok (ThroughputResult.creditAttrDecorator "my_rl" 40) :=
  throughput_weight_and_attribute creditFresh40 countStateExpired "my_rl" 40 (some 40)
    (by decide)

/-- Counterexample for C7 as stated: supplying both an attribute name and a
weight (with rate_limiter left as None) is accepted: throughput returns the
attribute-based credit decorator and no error is raised before the wrapped
call. -/
theorem throughput_both_accepted_counterexample :
    throughputModel none (some "my_credit_rate_limiter") (some 40) =
      Except.ok (ThroughputResult.creditAttrDecorator "my_credit_rate_limiter" 40) := rfl

theorem pruneCredits_replicate_zero (k : ℕ) :
    pruneCredits 0 1 (List.replicate k ((0:ℚ), (0:Int))) =
      List.replicate k ((0:ℚ), (0:Int)) := by
  cases k with
  | zero => rfl
  | succ n =>
      rw [List.replicate_succ]
      simp only [pruneCredits]
      rw [if_neg (by norm_num)]

theorem credit_sum_replicate_zero (k : ℕ) :
    credit_sum (List.replicate k ((0:ℚ), (0:Int))) = 0 := by
  induction k with
  | zero => rfl
  | succ n ih =>
      rw [List.replicate_succ, credit_sum_cons, ih]
      norm_num

theorem runCredit_replicate_aux :
    ∀ (m k : ℕ),
      (List.replicate m (CreditEvent.poll 0 0 0)).foldl (creditStep 1 1)
          (List.replicate k ((0:ℚ), (0:Int))) =
        List.replicate (k + m) ((0:ℚ), (0:Int))
  | 0, k => by simp
  | m + 1, k => by
      rw [List.replicate_succ, List.foldl_cons]
      have hg : credit_sum (List.replicate k ((0:ℚ), (0:Int))) < 1 := by
        rw [credit_sum_replicate_zero]
        norm_num
      have hstep : creditStep 1 1 (List.replicate k ((0:ℚ), (0:Int)))
          (CreditEvent.poll 0 0 0) = List.replicate (k + 1) ((0:ℚ), (0:Int)) := by
        simp only [creditStep]
        rw [pruneCredits_replicate_zero, if_pos hg]
        exact (List.replicate_succ' _ _).symm
      rw [hstep, runCredit_replicate_aux m (k + 1)]
      congr 1
      omega

theorem pruneTimestamps_replicate_zero (k : ℕ) :
    pruneTimestamps 0 1 (List.replicate k (0:ℚ)) = List.replicate k (0:ℚ) := by
  cases k with
  | zero => rfl
  | succ n =>
      rw [List.replicate_succ]
      simp only [pruneTimestamps]
      rw [if_neg (by norm_num)]

theorem runCount_replicate_aux (max : Int) :
    ∀ (m k : ℕ), (((k + m : ℕ) : Int) ≤ max) →
      (List.replicate m (CountEvent.poll 0 0)).foldl (countStep max 1)
          (List.replicate k (0:ℚ)) =
        List.replicate (k + m) (0:ℚ)
  | 0, k, _ => by simp
  | m + 1, k, h => by
      rw [List.replicate_succ, List.foldl_cons]
      have hg : ((List.replicate k (0:ℚ)).length : Int) < max := by
        simp only [List.length_replicate]
        omega
      have hstep : countStep max 1 (List.replicate k (0:ℚ)) (CountEvent.poll 0 0) =
          List.replicate (k + 1) (0:ℚ) := by
        simp only [countStep]
        rw [pruneTimestamps_replicate_zero, if_pos hg]
        exact (List.replicate_succ' _ _).symm
      rw [hstep, runCount_replicate_aux max m (k + 1) (by omega)]
      congr 1
      omega

/-- Claim C8 (amended): the per-pool state is one list entry per un-pruned
admission: after n admissions inside one interval the credit pool stores n
(timestamp, credits) pairs and the count pool stores n timestamps, so the
retained state grows linearly with the requests admitted in the current
window rather than being a fixed amount of memory. -/
theorem pool_state_linear_in_admissions (n : ℕ) :
    (runCredit 1 1 (List.replicate n (CreditEvent.poll 0 0 0))).length = n ∧
    (runCount (n : Int) 1 (List.replicate n (CountEvent.poll 0 0))).length = n := by
  constructor
  · have h := runCredit_replicate_aux n 0
    simp only [List.replicate_zero] at h
    rw [runCredit, h]
    simp
  · have h := runCount_replicate_aux (n : Int) n 0 (by omega)
    simp only [List.replicate_zero] at h
    rw [runCount, h]
    simp

/-- Counterexample for C8 as stated: the memory retained by one credit pool is
not independent of the number of requests admitted in the window: after one
admission the record holds 1 entry, after three admissions within the same
interval it holds 3. -/
theorem pool_state_not_constant_counterexample :
    (runCredit 5 1 [CreditEvent.poll 0 0 1]).length = 1 ∧
    (runCredit 5 1 [CreditEvent.poll 0 0 1, CreditEvent.poll 0 0 1,
      CreditEvent.poll 0 0 1]).length = 3 := by
  constructor
  · norm_num [runCredit, creditStep, pruneCredits, credit_sum]
  · norm_num [runCredit, creditStep, pruneCredits, credit_sum]

/-- Claim C9: __aexit__ only resets request_credits to -1, whatever the
exception outcome of the protected operation was; timestamped_credits,
max_credits and interval are unchanged, and in particular the available
budget is unchanged: exiting the scope returns no capacity to the pool. -/
theorem aexit_frame (s : CreditRateLimiter) (exc : Option String) :
    (s.aexit exc).request_credits = -1 ∧
    (s.aexit exc).timestamped_credits = s.timestamped_credits ∧
    (s.aexit exc).max_credits = s.max_credits ∧
    (s.aexit exc).interval = s.interval ∧
    availableCredits (s.aexit exc) = availableCredits s :=
  ⟨rfl, rfl, rfl, rfl, rfl⟩

/-- Claim C10: calling throughput with a CreditRateLimiter instance and
request_credits = 0 raises ValueError, identically to the call with
request_credits missing: the guard tests the Python truthiness of
request_credits, and 0 is falsy like None. -/
theorem throughput_zero_credits_rejected (crl : CreditRateLimiter) :
    throughputModel (some (RateLimiterInstance.credit crl)) none (some 0) =
      Except.error creditParamsErrMsg ∧
    throughputModel (some (RateLimiterInstance.credit crl)) none (some 0) =
      throughputModel (some (RateLimiterInstance.credit crl)) none none :=
  ⟨rfl, rfl⟩
